import Mathlib

/-!
Verification of the currency-bot rate monitor and notification decision
engine, shallowly embedded from the Python sources:

- `src/common/notifications/base_notifications.py` (`BaseNotificationManager`)
- `src/common/monitor/base_monitor.py` (`BaseMonitor`)
- `src/currency/monitor/currency_monitor.py` (`CurrencyMonitor`)
- `src/currency/notifications/currency_notifications.py` (`CurrencyNotificationManager`)
- `src/currency_bot.py` (`CADRMBCurrencyBot.run_continuous_monitoring`)

Python floats are modelled as exact rationals, wall-clock reads
(`datetime.now()`) are passed in as explicit parameters (`today`, `hour`,
and display strings), and the SMTP / HTTP transports are modelled by
explicit outcome parameters.  Python exceptions are modelled with
`Except`; a `try/except` block becomes a handler on the `Except` value.
-/

namespace CurrencyBot

/-! ## Data model: notification dedup state (`BaseNotificationManager.__init__`) -/

/-- The in-memory dedup state owned by `BaseNotificationManager`:
`self.alert_sent_today : bool` and `self.last_daily_summary : str`
(initialised to `False` and `""`). -/
structure NotifState where
  alert_sent_today : Bool
  last_daily_summary : String
deriving Repr, DecidableEq

/-- The fresh state created by `BaseNotificationManager.__init__`. -/
def initialState : NotifState := ⟨false, ""⟩

/-- The decision taken by one `send_notifications` evaluation: send an
immediate alert, send a daily summary, or do nothing. -/
inductive Decision where
  | noOp
  | sendAlert
  | sendSummary
deriving Repr, DecidableEq

/-- A value stored in the `rate_data` dict: the program stores floats
(`current_rate`, `threshold`) and strings (`timestamp`, `currency_pair`). -/
inductive Value where
  | num (q : ℚ)
  | str (s : String)
deriving Repr, DecidableEq

/-- The `rate_data` dict passed to `send_notifications`, as an association
list; the empty list models a falsy (empty) dict. -/
abbrev RateData := List (String × Value)

/-- `rate_data.get(k)`: first binding of key `k`, or `none`. -/
def dict_get (k : String) : RateData → Option Value
  | [] => none
  | (k2, v) :: rest => if k2 = k then some v else dict_get k rest

/-- The `rate_data` dict built by `CADRMBCurrencyBot.run_continuous_monitoring`
(and `run_single_check`): keys `current_rate`, `threshold`, `timestamp`,
`currency_pair`. -/
def mk_rate_data (current_rate threshold : ℚ) (timestamp currency_pair : String) : RateData :=
  [("current_rate", Value.num current_rate),
   ("threshold", Value.num threshold),
   ("timestamp", Value.str timestamp),
   ("currency_pair", Value.str currency_pair)]

/-! ## Email transport (`BaseNotificationManager._send_email_notification`) -/

/-- The notification config consulted by `_send_email_notification`:
`email` and `gmail_app_password` (absent key modelled as `none`; an empty
string is also falsy in Python). -/
structure EmailConfig where
  email : Option String
  gmail_app_password : Option String
deriving Repr, DecidableEq

/-- Python truthiness test `not x` for an optional string: true when the
key is absent or the string is empty. -/
def strFalsy : Option String → Bool
  | none => true
  | some s => s.isEmpty

/-- The guard in `_send_email_notification`:
`if not sender_email or not gmail_password`. -/
def creds_missing (cfg : EmailConfig) : Bool :=
  strFalsy cfg.email || strFalsy cfg.gmail_app_password

/-- Return value of `_send_email_notification`.  When credentials are
missing it logs a warning and returns `True` without touching SMTP;
otherwise the result is the outcome of the SMTP transaction
(`transportOk`), with any exception caught and turned into `False`. -/
def send_email_notification (cfg : EmailConfig) (transportOk : Bool) : Bool :=
  if creds_missing cfg then true else transportOk

/-- Whether `_send_email_notification` actually handed a message to the
SMTP server: false when credentials are missing (early `return True`),
otherwise tied to the transport outcome. -/
def email_dispatched (cfg : EmailConfig) (transportOk : Bool) : Bool :=
  if creds_missing cfg then false else transportOk

/-! ## Decision predicates (`_should_send_alert`, `_should_send_daily_summary`) -/

/-- `BaseNotificationManager._should_send_alert`: rate strictly below the
threshold and no alert sent yet today. -/
def should_send_alert (current_rate threshold : ℚ) (s : NotifState) : Bool :=
  decide (current_rate < threshold) && !s.alert_sent_today

/-- `BaseNotificationManager._is_time_for_daily_summary`: the current
wall-clock hour equals 0 (midnight window). -/
def is_time_for_daily_summary (hour : ℕ) : Bool :=
  hour == 0

/-- `BaseNotificationManager._should_send_daily_summary`: no summary
recorded for today, rate at or above threshold, and midnight window. -/
def should_send_daily_summary (current_rate threshold : ℚ) (today : String) (hour : ℕ)
    (s : NotifState) : Bool :=
  (s.last_daily_summary != today) && decide (threshold ≤ current_rate)
    && is_time_for_daily_summary hour

/-! ## The evaluation operation (`BaseNotificationManager.send_notifications`) -/

/-- The observable outcome of one `send_notifications` call: the returned
boolean, the state after the call, the decision taken, and whether an email
was actually handed to the SMTP transport. -/
structure SendResult where
  ok : Bool
  state : NotifState
  decision : Decision
  dispatched : Bool
deriving Repr, DecidableEq

/-- `BaseNotificationManager.send_notifications`.  An empty (falsy)
`rate_data` returns `True` untouched; a missing `current_rate` or
`threshold` key returns `False`; otherwise the alert check runs first and
the summary check only in its else-branch.  On a successful alert send the
state becomes `{alert_sent_today := true, last_daily_summary := ""}`; on a
successful summary send `last_daily_summary` becomes today; on a failed
send the state is unchanged and `False` is returned.  Non-numeric values
under the rate keys (never produced by this program, which always stores
floats there) would raise `TypeError` at the comparison, caught by the
surrounding `except` which returns `False`. -/
def send_notifications (today : String) (hour : ℕ) (cfg : EmailConfig) (transportOk : Bool)
    (rate_data : RateData) (s : NotifState) : SendResult :=
  if rate_data.isEmpty then ⟨true, s, Decision.noOp, false⟩
  else
    match dict_get "current_rate" rate_data, dict_get "threshold" rate_data with
    | some (Value.num current_rate), some (Value.num threshold) =>
      if should_send_alert current_rate threshold s then
        let alert_sent := send_email_notification cfg transportOk
        if alert_sent then
          ⟨true, ⟨true, ""⟩, Decision.sendAlert, email_dispatched cfg transportOk⟩
        else
          ⟨false, s, Decision.sendAlert, email_dispatched cfg transportOk⟩
      else
        if should_send_daily_summary current_rate threshold today hour s then
          let summary_sent := send_email_notification cfg transportOk
          if summary_sent then
            ⟨true, ⟨s.alert_sent_today, today⟩, Decision.sendSummary,
              email_dispatched cfg transportOk⟩
          else
            ⟨false, s, Decision.sendSummary, email_dispatched cfg transportOk⟩
        else
          ⟨true, s, Decision.noOp, false⟩
    | none, _ => ⟨false, s, Decision.noOp, false⟩
    | _, none => ⟨false, s, Decision.noOp, false⟩
    | some _, some _ => ⟨false, s, Decision.noOp, false⟩

/-- `BaseNotificationManager.reset_daily_flags`: whenever
`last_daily_summary` differs from today, set `alert_sent_today := False`
and `last_daily_summary := ""`. -/
def reset_daily_flags (today : String) (s : NotifState) : NotifState :=
  if s.last_daily_summary != today then ⟨false, ""⟩ else s

/-! ## The continuous monitoring loop (`CADRMBCurrencyBot.run_continuous_monitoring`)

One iteration of the `while True` body: call `reset_daily_flags`, fetch a
rate, and when a truthy rate was obtained build `rate_data` and call
`send_notifications`.  The wall clock and the external transports are
supplied per cycle. -/

/-- Environment of a single monitoring cycle: the wall-clock date and hour,
the email credentials and SMTP outcome, the configured threshold, the
fetched rate (`none` models a failed fetch), and the timestamp string. -/
structure CycleEnv where
  today : String
  hour : ℕ
  cfg : EmailConfig
  transportOk : Bool
  threshold : ℚ
  fetched : Option ℚ
  timestamp : String

/-- One iteration of the monitoring loop body: `reset_daily_flags`, then
(if the fetched rate is truthy — Python `if current_rate:` is false for
`None` and for `0.0`) `send_notifications` on the constructed `rate_data`.
Returns the state after the cycle and the `send_notifications` outcome
when it ran. -/
def run_cycle (e : CycleEnv) (s : NotifState) : NotifState × Option SendResult :=
  let s1 := reset_daily_flags e.today s
  match e.fetched with
  | some r =>
    if r ≠ 0 then
      let res := send_notifications e.today e.hour e.cfg e.transportOk
        (mk_rate_data r e.threshold e.timestamp "CAD-RMB") s1
      (res.state, some res)
    else (s1, none)
  | none => (s1, none)

/-- Run a sequence of monitoring cycles, collecting every
`send_notifications` outcome. -/
def run_trace : List CycleEnv → NotifState → NotifState × List SendResult
  | [], s => (s, [])
  | e :: rest, s =>
    let (s1, res) := run_cycle e s
    let (s2, results) := run_trace rest s1
    (s2, (match res with | some r => [r] | none => []) ++ results)

/-- Number of alert emails actually dispatched in a list of cycle
outcomes. -/
def alert_emails (rs : List SendResult) : ℕ :=
  (rs.filter (fun r => r.decision == Decision.sendAlert && r.dispatched)).length

/-- Number of summary emails actually dispatched in a list of cycle
outcomes. -/
def summary_emails (rs : List SendResult) : ℕ :=
  (rs.filter (fun r => r.decision == Decision.sendSummary && r.dispatched)).length

/-! ## Retry wrapper (`BaseMonitor.get_rate_with_retry`)

The Python loop `for attempt in range(max_attempts)` calls
`get_current_rate()` once per iteration, returns the first non-`None`
rate, and sleeps `2 ** attempt` seconds after a failed attempt when
`attempt < max_attempts - 1`.  The embedding additionally records the list
of sleep durations and the number of fetch calls performed. -/

/-- Loop of `get_rate_with_retry`: `i` is the current zero-based attempt
index, `fuel` the number of remaining loop iterations, `last` is
`max_attempts - 1`, and `sleeps`/`calls` accumulate the observed sleep
durations and fetch-call count. -/
def retryAux (fetch : ℕ → Option ℚ) (last : ℕ) :
    ℕ → ℕ → List ℕ → ℕ → Option ℚ × List ℕ × ℕ
  | _, 0, sleeps, calls => (none, sleeps, calls)
  | i, fuel + 1, sleeps, calls =>
    match fetch i with
    | some r => (some r, sleeps, calls + 1)
    | none =>
      if i < last then
        retryAux fetch last (i + 1) fuel (sleeps ++ [2 ^ i]) (calls + 1)
      else
        retryAux fetch last (i + 1) fuel sleeps (calls + 1)

/-- `BaseMonitor.get_rate_with_retry`: result is the rate obtained (or
`none` after exhausting all attempts), the sleeps performed, and the
number of fetcher calls.  `fetch i` is the outcome of the `i`-th call to
`get_current_rate` (that method catches every exception and returns
`None`, so each outcome is an optional rate). -/
def get_rate_with_retry (fetch : ℕ → Option ℚ) (max_attempts : ℕ) :
    Option ℚ × List ℕ × ℕ :=
  retryAux fetch (max_attempts - 1) 0 max_attempts [] 0

/-! ## Rate fetcher (`BaseMonitor.get_current_rate`,
`CurrencyMonitor._extract_rate_from_response`)

The HTTP call and JSON body are modelled by an `ApiOutcome`; Python
exceptions travel as `Except PyExn`.  `get_current_rate` wraps its whole
body in `try/except requests.RequestException / except Exception`, both
handlers returning `None`, so the handled function is total.  Alongside
the optional rate the embedding records which failure log line fired. -/

/-- The Python exceptions that can arise in the fetch pipeline. -/
inductive PyExn where
  | requestException
  | valueError
  | attributeError
deriving Repr, DecidableEq

/-- A JSON value sitting under a currency code in the `rates` map, as seen
by `float(cny_rate)`: a number, a numeric string (parses), a non-numeric
string (`ValueError`), or `null` (`TypeError`). -/
inductive JsonVal where
  | num (q : ℚ)
  | numStr (q : ℚ)
  | badStr (s : String)
  | nullVal
deriving Repr, DecidableEq

/-- The `rates` field of the response body: absent
(`data.get("rates", {})` yields `{}`), present but not a dict
(`.get` raises `AttributeError`), or a map from currency codes to values. -/
inductive RatesField where
  | missing
  | notDict
  | entries (m : List (String × JsonVal))
deriving Repr, DecidableEq

/-- The parsed JSON response body (only the `rates` field is consulted by
`_extract_rate_from_response`). -/
structure ApiData where
  rates : RatesField
deriving Repr, DecidableEq

/-- Outcome of the HTTP request in `get_current_rate`: a transport error
(`requests` raises a `RequestException`), a non-success status
(`raise_for_status` raises `HTTPError`), a body that is not valid JSON
(`response.json()` raises), or a parsed body. -/
inductive ApiOutcome where
  | transportError
  | httpError (status : ℕ)
  | invalidJson
  | success (d : ApiData)
deriving Repr, DecidableEq

/-- Which failure log line fired, distinguishing the extraction-layer
failures inside `_extract_rate_from_response` (the `ExtractionError`
category: currency code absent, or a value `float()` cannot convert) from
the fetch-layer handlers in `get_current_rate` (the `FetchError`
category: transport, status, body parse, or an exception escaping the
extractor). -/
inductive FailureKind where
  | extractionMissingCode
  | extractionBadValue
  | fetchError
deriving Repr, DecidableEq

/-- Lookup of `rates.get(target_currency)` in the modelled rates map. -/
def rates_get (target : String) : List (String × JsonVal) → Option JsonVal
  | [] => none
  | (k, v) :: rest => if k = target then some v else rates_get target rest

/-- `CurrencyMonitor._extract_rate_from_response`.  Its body can raise
`AttributeError` (a non-dict `rates`), which its
`except (KeyError, ValueError, TypeError)` clause does not catch; a
missing code returns `None` with the could-not-find log line; `float()`
failures (`ValueError`/`TypeError`) are caught by that clause and return
`None` with the error-extracting log line. -/
def extract_rate_from_response (target : String) (d : ApiData) :
    Except PyExn (Option ℚ × Option FailureKind) :=
  match d.rates with
  | RatesField.missing => Except.ok (none, some FailureKind.extractionMissingCode)
  | RatesField.notDict => Except.error PyExn.attributeError
  | RatesField.entries m =>
    match rates_get target m with
    | none => Except.ok (none, some FailureKind.extractionMissingCode)
    | some (JsonVal.num q) => Except.ok (some q, none)
    | some (JsonVal.numStr q) => Except.ok (some q, none)
    | some (JsonVal.badStr _) => Except.ok (none, some FailureKind.extractionBadValue)
    | some JsonVal.nullVal => Except.ok (none, some FailureKind.extractionBadValue)

/-- The body of `get_current_rate` before its own `try/except`: the HTTP
steps raise on transport, status and body-parse failures, then the
extractor runs. -/
def get_current_rate_body (target : String) (o : ApiOutcome) :
    Except PyExn (Option ℚ × Option FailureKind) :=
  match o with
  | ApiOutcome.transportError => Except.error PyExn.requestException
  | ApiOutcome.httpError _ => Except.error PyExn.requestException
  | ApiOutcome.invalidJson => Except.error PyExn.valueError
  | ApiOutcome.success d => extract_rate_from_response target d

/-- `BaseMonitor.get_current_rate`: the surrounding
`except requests.exceptions.RequestException` / `except Exception`
handlers both log a fetch-layer error and return `None`, so every
exception of the body is absorbed and the function is total. -/
def get_current_rate (target : String) (o : ApiOutcome) :
    Option ℚ × Option FailureKind :=
  match get_current_rate_body target o with
  | Except.ok v => v
  | Except.error _ => (none, some FailureKind.fetchError)

/-! ## Email renderer (`CurrencyNotificationManager._format_email_message`)

Python float formatting `format(x, ".4f")` / `format(x, "+.2f")` rounds
the value to the given number of decimal places (ties to even) and prints
a sign, integer part, point, and zero-padded fraction; `pyFormatFloat`
mirrors that on the exact rational values of this model. -/

/-- Pad a digit string on the left with zeros up to width `w`. -/
def padZeros (w : ℕ) (s : String) : String :=
  String.mk (List.replicate (w - s.length) '0') ++ s

/-- Round the rational `a / b` (with `b > 0`) to the nearest integer,
ties to even (the rounding used by Python float formatting). -/
def roundHalfEvenInt (a b : ℤ) : ℤ :=
  let f := Int.fdiv a b
  let r := a - f * b
  if 2 * r < b then f
  else if b < 2 * r then f + 1
  else if f % 2 = 0 then f else f + 1

/-- Python fixed-point float formatting: `pyFormatFloat false 4 q` is
`format(q, ".4f")` and `pyFormatFloat true 2 q` is `format(q, "+.2f")`:
the value scaled by `10 ^ prec` (computed on the exact numerator and
denominator) is rounded half-even, then printed as sign, integer part,
point, and zero-padded fraction. -/
def pyFormatFloat (forceSign : Bool) (prec : ℕ) (q : ℚ) : String :=
  let scale : ℤ := Int.ofNat (10 ^ prec)
  let n := roundHalfEvenInt (q.num * scale) (Int.ofNat q.den)
  let m := n.natAbs
  let sign := if q < 0 then "-" else if forceSign then "+" else ""
  sign ++ Nat.repr (m / 10 ^ prec) ++ "." ++ padZeros prec (Nat.repr (m % 10 ^ prec))

/-- Concatenation of a list of string pieces (the f-string templates are
embedded as the concatenation of their literal and interpolated parts). -/
def concatAll : List String → String
  | [] => ""
  | s :: rest => s ++ concatAll rest

/-- CurrencyNotificationManager._format_alert_email: the alert HTML body.  The `Monitor ID` timestamp
(`datetime.now().strftime`) is the display-only input `now_id`. -/
def format_alert_email (current_rate threshold difference percentage_change : ℚ)
    (formatted_time currency_pair now_id : String) : String :=
  concatAll [
    "\n        <html>\n        <body style=\"font-family: Arial, sans-serif; line-height: 1.6; color: #333;\">\n            <div style=\"max-width: 600px; margin: 0 auto; padding: 20px;\">\n                <h2 style=\"color: #e74c3c; text-align: center;\">\n                    🚨 Currency Exchange Rate Alert\n                </h2>\n                \n                <div style=\"background-color: #f8f9fa; padding: 20px; border-radius: 8px; margin: 20px 0;\">\n                    <h3 style=\"color: #2c3e50; margin-top: 0;\">\n                        ",
    currency_pair,
    " Exchange Rate Alert\n                    </h3>\n                    \n                    <div style=\"display: flex; justify-content: space-between; margin: 15px 0;\">\n                        <div style=\"text-align: center;\">\n                            <div style=\"font-size: 24px; font-weight: bold; color: #e74c3c;\">\n                                ",
    pyFormatFloat false 4 current_rate,
    "\n                            </div>\n                            <div style=\"color: #7f8c8d; font-size: 14px;\">\n                                Current Rate (1 CAD = X RMB)\n                            </div>\n                        </div>\n                        \n                        <div style=\"text-align: center;\">\n                            <div style=\"font-size: 24px; font-weight: bold; color: #27ae60;\">\n                                ",
    pyFormatFloat false 4 threshold,
    "\n                            </div>\n                            <div style=\"color: #7f8c8d; font-size: 14px;\">\n                                Alert Threshold\n                            </div>\n                        </div>\n                    </div>\n                    \n                    <div style=\"text-align: center; margin: 20px 0;\">\n                        <div style=\"font-size: 18px; font-weight: bold; color: #e74c3c;\">\n                            Difference: ",
    pyFormatFloat true 4 difference,
    " (",
    pyFormatFloat true 2 percentage_change ++ "%",
    ")\n                        </div>\n                    </div>\n                </div>\n                \n                <div style=\"background-color: #fff3cd; border: 1px solid #ffeaa7; padding: 15px; border-radius: 5px; margin: 20px 0;\">\n                    <h4 style=\"color: #856404; margin-top: 0;\">\n                        ⚠️ Alert Details\n                    </h4>\n                    <p style=\"margin: 5px 0; color: #856404;\">\n                        The ",
    currency_pair,
    " exchange rate has dropped below your specified threshold of ",
    pyFormatFloat false 4 threshold,
    ".\n                    </p>\n                    <p style=\"margin: 5px 0; color: #856404;\">\n                        Current rate: <strong>",
    pyFormatFloat false 4 current_rate,
    "</strong> (1 CAD = ",
    pyFormatFloat false 4 current_rate,
    " RMB)\n                    </p>\n                    <p style=\"margin: 5px 0; color: #856404;\">\n                        Alert triggered at: <strong>",
    formatted_time,
    "</strong>\n                    </p>\n                </div>\n                \n                <div style=\"background-color: #d1ecf1; border: 1px solid #bee5eb; padding: 15px; border-radius: 5px; margin: 20px 0;\">\n                    <h4 style=\"color: #0c5460; margin-top: 0;\">\n                        📊 What This Means\n                    </h4>\n                    <p style=\"margin: 5px 0; color: #0c5460;\">\n                        A lower CAD-RMB rate means that 1 Canadian Dollar can buy fewer Chinese Yuan (RMB).\n                    </p>\n                    <p style=\"margin: 5px 0; color: #0c5460;\">\n                        This could be a good time to exchange CAD for RMB if you\x27re planning to make a purchase in China.\n                    </p>\n                </div>\n                \n                <div style=\"text-align: center; margin: 30px 0; padding: 20px; background-color: #f8f9fa; border-radius: 8px;\">\n                    <p style=\"color: #6c757d; font-size: 14px; margin: 0;\">\n                        This alert was generated by your Currency Exchange Rate Monitor\n                    </p>\n                    <p style=\"color: #6c757d; font-size: 12px; margin: 5px 0 0 0;\">\n                        Monitor ID: ",
    currency_pair,
    "-",
    now_id,
    "\n                    </p>\n                </div>\n            </div>\n        </body>\n        </html>\n        "]

/-- CurrencyNotificationManager._format_summary_email: the summary HTML body.  The `Monitor ID` timestamp
(`datetime.now().strftime`) is the display-only input `now_id`. -/
def format_summary_email (current_rate threshold difference percentage_change : ℚ)
    (formatted_time currency_pair now_id : String) : String :=
  concatAll [
    "\n        <html>\n        <body style=\"font-family: Arial, sans-serif; line-height: 1.6; color: #333;\">\n            <div style=\"max-width: 600px; margin: 0 auto; padding: 20px;\">\n                <h2 style=\"color: #27ae60; text-align: center;\">\n                    📊 Daily Currency Summary\n                </h2>\n                \n                <div style=\"background-color: #f8f9fa; padding: 20px; border-radius: 8px; margin: 20px 0;\">\n                    <h3 style=\"color: #2c3e50; margin-top: 0;\">\n                        ",
    currency_pair,
    " Daily Summary\n                    </h3>\n                    \n                    <div style=\"display: flex; justify-content: space-between; margin: 15px 0;\">\n                        <div style=\"text-align: center;\">\n                            <div style=\"font-size: 24px; font-weight: bold; color: #27ae60;\">\n                                ",
    pyFormatFloat false 4 current_rate,
    "\n                            </div>\n                            <div style=\"color: #7f8c8d; font-size: 14px;\">\n                                Current Rate (1 CAD = X RMB)\n                            </div>\n                        </div>\n                        \n                        <div style=\"text-align: center;\">\n                            <div style=\"font-size: 24px; font-weight: bold; color: #6c757d;\">\n                                ",
    pyFormatFloat false 4 threshold,
    "\n                            </div>\n                            <div style=\"color: #7f8c8d; font-size: 14px;\">\n                                Alert Threshold\n                            </div>\n                        </div>\n                    </div>\n                    \n                    <div style=\"text-align: center; margin: 20px 0;\">\n                        <div style=\"font-size: 18px; font-weight: bold; color: #27ae60;\">\n                            Difference: ",
    pyFormatFloat true 4 difference,
    " (",
    pyFormatFloat true 2 percentage_change ++ "%",
    ")\n                        </div>\n                    </div>\n                </div>\n                \n                <div style=\"background-color: #d4edda; border: 1px solid #c3e6cb; padding: 15px; border-radius: 5px; margin: 20px 0;\">\n                    <h4 style=\"color: #155724; margin-top: 0;\">\n                        ✅ Status Update\n                    </h4>\n                    <p style=\"margin: 5px 0; color: #155724;\">\n                        The ",
    currency_pair,
    " exchange rate is currently <strong>above</strong> your alert threshold.\n                    </p>\n                    <p style=\"margin: 5px 0; color: #155724;\">\n                        Current rate: <strong>",
    pyFormatFloat false 4 current_rate,
    "</strong> (1 CAD = ",
    pyFormatFloat false 4 current_rate,
    " RMB)\n                    </p>\n                    <p style=\"margin: 5px 0; color: #155724;\">\n                        Summary generated at: <strong>",
    formatted_time,
    "</strong>\n                    </p>\n                </div>\n                \n                <div style=\"background-color: #d1ecf1; border: 1px solid #bee5eb; padding: 15px; border-radius: 5px; margin: 20px 0;\">\n                    <h4 style=\"color: #0c5460; margin-top: 0;\">\n                        📈 Market Analysis\n                    </h4>\n                    <p style=\"margin: 5px 0; color: #0c5460;\">\n                        The Canadian Dollar is performing well against the Chinese Yuan.\n                    </p>\n                    <p style=\"margin: 5px 0; color: #0c5460;\">\n                        No immediate trading opportunities detected. We\x27ll continue monitoring and alert you if the rate drops below ",
    pyFormatFloat false 4 threshold,
    ".\n                    </p>\n                </div>\n                \n                <div style=\"text-align: center; margin: 30px 0; padding: 20px; background-color: #f8f9fa; border-radius: 8px;\">\n                    <p style=\"color: #6c757d; font-size: 14px; margin: 0;\">\n                        Daily summary from your Currency Exchange Rate Monitor\n                    </p>\n                    <p style=\"color: #6c757d; font-size: 12px; margin: 5px 0 0 0;\">\n                        Monitor ID: ",
    currency_pair,
    "-",
    now_id,
    "\n                    </p>\n                </div>\n            </div>\n        </body>\n        </html>\n        "]

/-- `CurrencyNotificationManager._format_email_message`: computes the
difference and the percentage change (`(difference / threshold) * 100`
when `threshold > 0`, else `0`) and selects the alert or summary
template.  The display-only wall-clock reads (the `strftime`-formatted
timestamp and the `Monitor ID` suffix) are the inputs `formatted_time`
and `now_id`; the numeric fields come from `rate_data`, which this
program always populates with the float rate and threshold. -/
def format_email_message (current_rate threshold : ℚ)
    (formatted_time currency_pair now_id : String) (is_alert : Bool) : String :=
  let difference := current_rate - threshold
  let percentage_change := if 0 < threshold then difference / threshold * 100 else 0
  if is_alert then
    format_alert_email current_rate threshold difference percentage_change
      formatted_time currency_pair now_id
  else
    format_summary_email current_rate threshold difference percentage_change
      formatted_time currency_pair now_id

/-! ## Helper lemmas -/

/-- Evaluation of `send_notifications` on the `rate_data` dict the bot
constructs: the dict is non-empty and both rate keys are present and
numeric, so the call reduces to the alert / summary / no-op decision
tree. -/
theorem send_notifications_mk (today : String) (hour : ℕ) (cfg : EmailConfig)
    (transportOk : Bool) (R T : ℚ) (ts cp : String) (s : NotifState) :
    send_notifications today hour cfg transportOk (mk_rate_data R T ts cp) s =
      if should_send_alert R T s then
        if send_email_notification cfg transportOk then
          ⟨true, ⟨true, ""⟩, Decision.sendAlert, email_dispatched cfg transportOk⟩
        else ⟨false, s, Decision.sendAlert, email_dispatched cfg transportOk⟩
      else if should_send_daily_summary R T today hour s then
        if send_email_notification cfg transportOk then
          ⟨true, ⟨s.alert_sent_today, today⟩, Decision.sendSummary,
            email_dispatched cfg transportOk⟩
        else ⟨false, s, Decision.sendSummary, email_dispatched cfg transportOk⟩
      else ⟨true, s, Decision.noOp, false⟩ := rfl

/-! ## Claim theorems -/

/-- C8: for every state and fixed current date, `reset_daily_flags` is
idempotent (the second application does not change the state), and it
clears `alert_sent_today` and `last_daily_summary` exactly when
`last_daily_summary` differs from today. -/
theorem reset_daily_flags_idempotent_and_clears (today : String) (s : NotifState) :
    reset_daily_flags today (reset_daily_flags today s) = reset_daily_flags today s ∧
    (s.last_daily_summary ≠ today → reset_daily_flags today s = ⟨false, ""⟩) ∧
    (s.last_daily_summary = today → reset_daily_flags today s = s) := by
  unfold reset_daily_flags
  by_cases h : s.last_daily_summary = today
  · simp [h]
  · by_cases h2 : ("" : String) = today <;> simp [h, h2]

/-- Witness for C8 at a concrete input: a state carrying a stale summary
date is cleared by `reset_daily_flags`. -/
theorem reset_daily_flags_idempotent_and_clears_witness :
    reset_daily_flags "2025-01-27" ⟨true, "2025-01-26"⟩ = ⟨false, ""⟩ :=
  (reset_daily_flags_idempotent_and_clears "2025-01-27" ⟨true, "2025-01-26"⟩).2.1
    (by decide)

/-- C10: an empty (falsy) `rate_data` makes `send_notifications` return
`True` with no email and no state change; a non-empty `rate_data` missing
the `current_rate` or the `threshold` key makes it return `False` with no
email and no state change. -/
theorem invalid_rate_data_handling (today : String) (hour : ℕ) (cfg : EmailConfig)
    (transportOk : Bool) (s : NotifState) (rd : RateData) (hne : rd ≠ [])
    (hmiss : dict_get "current_rate" rd = none ∨ dict_get "threshold" rd = none) :
    send_notifications today hour cfg transportOk [] s =
      ⟨true, s, Decision.noOp, false⟩ ∧
    send_notifications today hour cfg transportOk rd s =
      ⟨false, s, Decision.noOp, false⟩ := by
  refine ⟨rfl, ?_⟩
  unfold send_notifications
  have hempty : rd.isEmpty = false := by
    cases rd with
    | nil => exact absurd rfl hne
    | cons a l => rfl
  rw [hempty]
  rcases hmiss with h | h
  · simp [h]
  · rcases hcur : dict_get "current_rate" rd with _ | v
    · simp [hcur]
    · rcases v with q | str <;> simp [hcur, h]

/-- Witness for C10 at a concrete input: a dict holding only a threshold
is rejected with `False`. -/
theorem invalid_rate_data_handling_witness :
    send_notifications "2025-01-27" 10 ⟨some "a@b.c", some "pw"⟩ true
        [("threshold", Value.num (101 / 20))] initialState =
      ⟨false, initialState, Decision.noOp, false⟩ :=
  (invalid_rate_data_handling "2025-01-27" 10 ⟨some "a@b.c", some "pw"⟩ true
    initialState [("threshold", Value.num (101 / 20))] (by decide)
    (Or.inl (by decide))).2

/-- C9: when the sender email or the Gmail app password is not configured,
`_send_email_notification` returns `True` without dispatching anything, so
an alert or summary decision still reports success and still updates the
dedup state even though no message left the system. -/
theorem missing_credentials_reports_success_updates_state (R T : ℚ)
    (today ts cp : String) (hour : ℕ) (cfg : EmailConfig) (transportOk : Bool)
    (s : NotifState) (hmiss : creds_missing cfg = true) :
    ((send_notifications today hour cfg transportOk (mk_rate_data R T ts cp) s).decision
        = Decision.sendAlert →
      (send_notifications today hour cfg transportOk (mk_rate_data R T ts cp) s).ok = true ∧
      (send_notifications today hour cfg transportOk (mk_rate_data R T ts cp) s).dispatched
        = false ∧
      (send_notifications today hour cfg transportOk (mk_rate_data R T ts cp) s).state
        = ⟨true, ""⟩) ∧
    ((send_notifications today hour cfg transportOk (mk_rate_data R T ts cp) s).decision
        = Decision.sendSummary →
      (send_notifications today hour cfg transportOk (mk_rate_data R T ts cp) s).ok = true ∧
      (send_notifications today hour cfg transportOk (mk_rate_data R T ts cp) s).dispatched
        = false ∧
      (send_notifications today hour cfg transportOk (mk_rate_data R T ts cp) s).state
        = ⟨s.alert_sent_today, today⟩) := by
  have hsend : send_email_notification cfg transportOk = true := by
    simp [send_email_notification, hmiss]
  have hdisp : email_dispatched cfg transportOk = false := by
    simp [email_dispatched, hmiss]
  rw [send_notifications_mk]
  by_cases ha : should_send_alert R T s = true
  · simp [ha, hsend, hdisp]
  · by_cases hs : should_send_daily_summary R T today hour s = true <;>
      simp [ha, hs, hsend, hdisp]

/-- Witness for C9 at a concrete input: with no password configured, a
below-threshold rate yields a successful alert decision, no dispatched
email, and the alert flag set. -/
theorem missing_credentials_reports_success_updates_state_witness :
    (send_notifications "2025-01-27" 10 ⟨some "a@b.c", none⟩ false
        (mk_rate_data (Rat.divInt 251 50) (Rat.divInt 101 20) "t" "CAD-RMB")
        initialState).ok = true ∧
    (send_notifications "2025-01-27" 10 ⟨some "a@b.c", none⟩ false
        (mk_rate_data (Rat.divInt 251 50) (Rat.divInt 101 20) "t" "CAD-RMB")
        initialState).dispatched = false ∧
    (send_notifications "2025-01-27" 10 ⟨some "a@b.c", none⟩ false
        (mk_rate_data (Rat.divInt 251 50) (Rat.divInt 101 20) "t" "CAD-RMB")
        initialState).state = ⟨true, ""⟩ :=
  (missing_credentials_reports_success_updates_state (Rat.divInt 251 50) (Rat.divInt 101 20)
    "2025-01-27" "t" "CAD-RMB" 10 ⟨some "a@b.c", none⟩ false initialState
    (by decide)).1 (by decide)

/-- C2: with `alert_sent_today = false`, a below-threshold rate and a
succeeding email send, the first `send_notifications` call decides
`SendAlert`, returns `True`, sets `alert_sent_today := true` and clears
`last_daily_summary`; a second call later the same day with any rate
below the threshold decides `NoOp`, sends nothing, and leaves the state
unchanged. -/
theorem first_alert_then_noop_same_day (T R R' : ℚ) (today ts1 ts2 cp1 cp2 : String)
    (hour1 hour2 : ℕ) (cfg : EmailConfig) (tOk1 tOk2 : Bool) (s : NotifState)
    (hT : 0 < T) (hR : R < T) (hR' : R' < T) (hA : s.alert_sent_today = false)
    (hsend : send_email_notification cfg tOk1 = true) :
    (send_notifications today hour1 cfg tOk1 (mk_rate_data R T ts1 cp1) s).decision
      = Decision.sendAlert ∧
    (send_notifications today hour1 cfg tOk1 (mk_rate_data R T ts1 cp1) s).ok = true ∧
    (send_notifications today hour1 cfg tOk1 (mk_rate_data R T ts1 cp1) s).state
      = ⟨true, ""⟩ ∧
    (send_notifications today hour2 cfg tOk2 (mk_rate_data R' T ts2 cp2) ⟨true, ""⟩).decision
      = Decision.noOp ∧
    (send_notifications today hour2 cfg tOk2 (mk_rate_data R' T ts2 cp2) ⟨true, ""⟩).ok
      = true ∧
    (send_notifications today hour2 cfg tOk2 (mk_rate_data R' T ts2 cp2) ⟨true, ""⟩).dispatched
      = false ∧
    (send_notifications today hour2 cfg tOk2 (mk_rate_data R' T ts2 cp2) ⟨true, ""⟩).state
      = ⟨true, ""⟩ := by
  have ha1 : should_send_alert R T s = true := by
    simp [should_send_alert, hR, hA]
  have ha2 : should_send_alert R' T ⟨true, ""⟩ = false := by
    simp [should_send_alert]
  have hs2 : should_send_daily_summary R' T today hour2 ⟨true, ""⟩ = false := by
    simp [should_send_daily_summary, not_le.mpr hR']
  rw [send_notifications_mk, send_notifications_mk, ha1, hsend, ha2, hs2]
  simp

/-- Witness for C2 at a concrete input: rate 5.02 against threshold 5.05
triggers an alert, and a second same-day evaluation at rate 5.00 is a
no-op. -/
theorem first_alert_then_noop_same_day_witness :
    (send_notifications "2025-01-27" 10 ⟨some "a@b.c", some "pw"⟩ true
        (mk_rate_data (Rat.divInt 251 50) (Rat.divInt 101 20) "t1" "CAD-RMB")
        initialState).decision = Decision.sendAlert ∧
    (send_notifications "2025-01-27" 10 ⟨some "a@b.c", some "pw"⟩ true
        (mk_rate_data (Rat.divInt 251 50) (Rat.divInt 101 20) "t1" "CAD-RMB")
        initialState).state = ⟨true, ""⟩ ∧
    (send_notifications "2025-01-27" 15 ⟨some "a@b.c", some "pw"⟩ true
        (mk_rate_data 5 (Rat.divInt 101 20) "t2" "CAD-RMB") ⟨true, ""⟩).decision
      = Decision.noOp := by
  have h := first_alert_then_noop_same_day (Rat.divInt 101 20) (Rat.divInt 251 50) 5
    "2025-01-27" "t1" "t2" "CAD-RMB" "CAD-RMB" 10 15 ⟨some "a@b.c", some "pw"⟩ true true
    initialState (by decide) (by decide) (by decide) (by decide) (by decide)
  exact ⟨h.1, h.2.2.1, h.2.2.2.1⟩

/-- C3: at or above the threshold, `send_notifications` never decides
`SendAlert`; it decides `SendSummary` exactly when `last_daily_summary`
differs from today and the wall-clock hour is 0, and `NoOp` otherwise;
and a successful summary send records today in `last_daily_summary`. -/
theorem above_threshold_summary_characterization (R T : ℚ) (today ts cp : String)
    (hour : ℕ) (cfg : EmailConfig) (transportOk : Bool) (s : NotifState)
    (hRT : T ≤ R) :
    (send_notifications today hour cfg transportOk (mk_rate_data R T ts cp) s).decision
      ≠ Decision.sendAlert ∧
    ((send_notifications today hour cfg transportOk (mk_rate_data R T ts cp) s).decision
        = Decision.sendSummary ↔ (s.last_daily_summary ≠ today ∧ hour = 0)) ∧
    ((send_notifications today hour cfg transportOk (mk_rate_data R T ts cp) s).decision
        = Decision.noOp ↔ ¬(s.last_daily_summary ≠ today ∧ hour = 0)) ∧
    ((send_notifications today hour cfg transportOk (mk_rate_data R T ts cp) s).decision
        = Decision.sendSummary →
      (send_notifications today hour cfg transportOk (mk_rate_data R T ts cp) s).ok
        = true →
      (send_notifications today hour cfg transportOk (mk_rate_data R T ts cp) s).state
        = ⟨s.alert_sent_today, today⟩) := by
  have ha : should_send_alert R T s = false := by
    simp [should_send_alert, not_lt.mpr hRT]
  have hsum : should_send_daily_summary R T today hour s = true ↔
      (s.last_daily_summary ≠ today ∧ hour = 0) := by
    simp [should_send_daily_summary, is_time_for_daily_summary, hRT]
  rw [send_notifications_mk, ha]
  by_cases hc : s.last_daily_summary ≠ today ∧ hour = 0
  · rw [if_neg (by simp), if_pos (hsum.mpr hc)]
    cases hsent : send_email_notification cfg transportOk <;> simp [hc]
  · rw [if_neg (by simp), if_neg (by rw [hsum]; exact hc)]
    simp [hc]

/-- Witness for C3 at a concrete input: rate 5.10 at or above threshold
5.05 at a non-midnight hour with fresh state is a no-op. -/
theorem above_threshold_summary_characterization_witness :
    (send_notifications "2025-01-27" 10 ⟨some "a@b.c", some "pw"⟩ true
        (mk_rate_data (Rat.divInt 51 10) (Rat.divInt 101 20) "t" "CAD-RMB")
        initialState).decision = Decision.noOp :=
  ((above_threshold_summary_characterization (Rat.divInt 51 10) (Rat.divInt 101 20)
      "2025-01-27" "t" "CAD-RMB" 10 ⟨some "a@b.c", some "pw"⟩ true initialState
      (by decide)).2.2.1).mpr (by decide)

/-- C4: when the decision is `SendAlert` or `SendSummary` and the email
send step fails, `send_notifications` returns `False` and leaves the
dedup state exactly as before, and re-evaluating under the same inputs
reproduces the same outcome. -/
theorem send_failure_preserves_state (R T : ℚ) (today ts cp : String) (hour : ℕ)
    (cfg : EmailConfig) (transportOk : Bool) (s : NotifState)
    (hfail : send_email_notification cfg transportOk = false)
    (hdec : (send_notifications today hour cfg transportOk
        (mk_rate_data R T ts cp) s).decision = Decision.sendAlert ∨
      (send_notifications today hour cfg transportOk
        (mk_rate_data R T ts cp) s).decision = Decision.sendSummary) :
    (send_notifications today hour cfg transportOk (mk_rate_data R T ts cp) s).ok
      = false ∧
    (send_notifications today hour cfg transportOk (mk_rate_data R T ts cp) s).state
      = s ∧
    send_notifications today hour cfg transportOk (mk_rate_data R T ts cp)
        (send_notifications today hour cfg transportOk (mk_rate_data R T ts cp) s).state
      = send_notifications today hour cfg transportOk (mk_rate_data R T ts cp) s := by
  rw [send_notifications_mk] at hdec ⊢
  by_cases ha : should_send_alert R T s = true
  · simp [ha, hfail, send_notifications_mk]
  · by_cases hs : should_send_daily_summary R T today hour s = true
    · simp [ha, hs, hfail, send_notifications_mk]
    · simp [ha, hs, hfail] at hdec

/-- Witness for C4 at a concrete input: with configured credentials and a
failing SMTP transaction, the alert decision returns `False` and keeps
the fresh state. -/
theorem send_failure_preserves_state_witness :
    (send_notifications "2025-01-27" 10 ⟨some "a@b.c", some "pw"⟩ false
        (mk_rate_data (Rat.divInt 251 50) (Rat.divInt 101 20) "t" "CAD-RMB")
        initialState).ok = false ∧
    (send_notifications "2025-01-27" 10 ⟨some "a@b.c", some "pw"⟩ false
        (mk_rate_data (Rat.divInt 251 50) (Rat.divInt 101 20) "t" "CAD-RMB")
        initialState).state = initialState :=
  have h := send_failure_preserves_state (Rat.divInt 251 50) (Rat.divInt 101 20)
    "2025-01-27" "t" "CAD-RMB" 10 ⟨some "a@b.c", some "pw"⟩ false initialState
    (by decide) (Or.inl (by decide))
  ⟨h.1, h.2.1⟩

/-- C1, shown false on the code: in the continuous monitoring loop, two
consecutive cycles on the same calendar day, both fetching a
below-threshold rate with the email send succeeding, dispatch two alert
emails.  `last_daily_summary` holds a date only after a summary send, and
the alert path clears it, so on any day without a prior summary send the
per-cycle `reset_daily_flags` sees a date mismatch and clears
`alert_sent_today` again, defeating the once-per-day dedup that the
code's own comments (reset "at midnight", "if it is a new day", alert
only if "we have not sent an alert today") require. -/
theorem monitoring_loop_sends_two_alerts_same_day :
    alert_emails (run_trace
      [⟨"2025-01-27", 10, ⟨some "a@b.c", some "pw"⟩, true, Rat.divInt 101 20,
          some (Rat.divInt 251 50), "2025-01-27T10:00:00"⟩,
       ⟨"2025-01-27", 10, ⟨some "a@b.c", some "pw"⟩, true, Rat.divInt 101 20,
          some (Rat.divInt 251 50), "2025-01-27T10:05:00"⟩]
      initialState).2 = 2 := by decide

/-- Helper: when every attempt in the remaining window fails, the retry
loop exhausts its fuel, sleeping `2 ^ j` after each failed attempt `j`
that is below the last index. -/
theorem retryAux_all_none (fetch : ℕ → Option ℚ) (last : ℕ) :
    ∀ (fuel i : ℕ) (sleeps : List ℕ) (calls : ℕ),
      (∀ j, i ≤ j → j < i + fuel → fetch j = none) →
      retryAux fetch last i fuel sleeps calls =
        (none,
         sleeps ++ ((List.range' i fuel).filter (fun j => decide (j < last))).map
           (fun j => 2 ^ j),
         calls + fuel) := by
  intro fuel
  induction fuel with
  | zero => intro i sleeps calls _; simp [retryAux]
  | succ n ih =>
    intro i sleeps calls h
    have hfi : fetch i = none := h i le_rfl (by omega)
    have hrest : ∀ j, i + 1 ≤ j → j < (i + 1) + n → fetch j = none := by
      intro j h1 h2
      exact h j (by omega) (by omega)
    by_cases hi : i < last
    · have hstep : retryAux fetch last i (n + 1) sleeps calls =
          retryAux fetch last (i + 1) n (sleeps ++ [2 ^ i]) (calls + 1) := by
        simp [retryAux, hfi, hi]
      rw [hstep, ih (i + 1) (sleeps ++ [2 ^ i]) (calls + 1) hrest,
        List.range'_succ]
      refine congrArg _ ?_
      refine congrArg₂ _ ?_ (by omega)
      simp [hi, List.append_assoc]
    · have hstep : retryAux fetch last i (n + 1) sleeps calls =
          retryAux fetch last (i + 1) n sleeps (calls + 1) := by
        simp [retryAux, hfi, hi]
      rw [hstep, ih (i + 1) sleeps (calls + 1) hrest, List.range'_succ]
      refine congrArg _ ?_
      refine congrArg₂ _ ?_ (by omega)
      simp [hi]

/-- Helper: when `i0` is the first attempt index with a successful fetch,
the retry loop returns that rate after sleeping `2 ^ j` for each failed
attempt `j < i0` and performing `i0 + 1` fetch calls. -/
theorem retryAux_first_some (fetch : ℕ → Option ℚ) (last i0 : ℕ) (q : ℚ)
    (hq : fetch i0 = some q) (hlast : i0 ≤ last) :
    ∀ (fuel i : ℕ) (sleeps : List ℕ) (calls : ℕ),
      i ≤ i0 → i0 < i + fuel →
      (∀ j, i ≤ j → j < i0 → fetch j = none) →
      retryAux fetch last i fuel sleeps calls =
        (some q,
         sleeps ++ (List.range' i (i0 - i)).map (fun j => 2 ^ j),
         calls + (i0 - i) + 1) := by
  intro fuel
  induction fuel with
  | zero => intro i sleeps calls h1 h2 _; exact absurd h2 (by omega)
  | succ n ih =>
    intro i sleeps calls h1 h2 h3
    rcases Nat.eq_or_lt_of_le h1 with heq | hlt
    · subst heq
      simp [retryAux, hq]
    · have hfi : fetch i = none := h3 i le_rfl hlt
      have hi : i < last := lt_of_lt_of_le hlt hlast
      have hstep : retryAux fetch last i (n + 1) sleeps calls =
          retryAux fetch last (i + 1) n (sleeps ++ [2 ^ i]) (calls + 1) := by
        simp [retryAux, hfi, hi]
      rw [hstep, ih (i + 1) (sleeps ++ [2 ^ i]) (calls + 1) (by omega) (by omega)
        (fun j hj1 hj2 => h3 j (by omega) hj2)]
      have hsplit : i0 - i = (i0 - (i + 1)) + 1 := by omega
      rw [hsplit, List.range'_succ]
      refine congrArg _ ?_
      refine congrArg₂ _ ?_ (by omega)
      simp [List.append_assoc]

/-- C5: `get_rate_with_retry` returns the first non-`None` rate after
`i0 + 1 ≤ max_attempts` fetcher calls, sleeping `2 ^ j` seconds after each
failed attempt `j < i0` and never after a success; and when every attempt
fails it performs exactly `max_attempts` calls, sleeps after every attempt
but the last, and returns `none` rather than raising. -/
theorem get_rate_with_retry_spec (fetch : ℕ → Option ℚ) (max_attempts : ℕ)
    (hmax : 1 ≤ max_attempts) :
    (∀ i0 q, i0 < max_attempts → fetch i0 = some q →
      (∀ j, j < i0 → fetch j = none) →
      get_rate_with_retry fetch max_attempts =
        (some q, (List.range i0).map (fun j => 2 ^ j), i0 + 1) ∧
      i0 + 1 ≤ max_attempts) ∧
    ((∀ j, j < max_attempts → fetch j = none) →
      get_rate_with_retry fetch max_attempts =
        (none, (List.range (max_attempts - 1)).map (fun j => 2 ^ j), max_attempts)) := by
  obtain ⟨m, rfl⟩ : ∃ m, max_attempts = m + 1 := ⟨max_attempts - 1, by omega⟩
  constructor
  · intro i0 q hi0 hq hbefore
    refine ⟨?_, by omega⟩
    unfold get_rate_with_retry
    rw [retryAux_first_some fetch (m + 1 - 1) i0 q hq (by omega) (m + 1) 0 [] 0
      (by omega) (by omega) (fun j _ hj => hbefore j hj)]
    simp [List.range_eq_range']
  · intro hall
    unfold get_rate_with_retry
    rw [retryAux_all_none fetch (m + 1 - 1) (m + 1) 0 [] 0
      (fun j _ hj => hall j (by omega))]
    have hfilter : (List.range' 0 (m + 1)).filter (fun j => decide (j < m + 1 - 1)) =
        List.range m := by
      rw [← List.range_eq_range', List.range_succ, List.filter_append]
      have h1 : (List.range m).filter (fun j => decide (j < m + 1 - 1)) =
          List.range m := by
        refine List.filter_eq_self.mpr ?_
        intro a ha
        have := List.mem_range.mp ha
        simp
        omega
      have h2 : [m].filter (fun j => decide (j < m + 1 - 1)) = [] := by
        simp
      rw [h1, h2, List.append_nil]
    rw [hfilter]
    simp

/-- Witness for C5 at a concrete input: with `max_attempts = 3` and a
fetcher failing twice then succeeding, the retry wrapper returns the
successful rate after sleeping 1s then 2s and three fetch calls. -/
theorem get_rate_with_retry_spec_witness :
    get_rate_with_retry (fun i => if i < 2 then none else some (7 : ℚ)) 3 =
      (some 7, [1, 2], 3) := by
  have h := (get_rate_with_retry_spec (fun i => if i < 2 then none else some (7 : ℚ)) 3
    (by norm_num)).1 2 7 (by norm_num) (by norm_num) (fun j hj => by simp [hj])
  rw [h.1]
  rfl

/-- C7: rate-fetch failures never escape `get_current_rate`: an absent
currency code yields the extraction-layer failure result, a transport
error, non-success status or unparseable body yields the fetch-layer
failure result, in every case the failure is a returned value whose
missing rate coincides with a recorded failure category, and the retry
wrapper turns any all-failing sequence of fetch outcomes into a `none`
rate rather than a propagated exception. -/
theorem fetch_failures_returned_not_raised :
    (∀ (target : String) (d : ApiData),
      (d.rates = RatesField.missing ∨
        ∃ m, d.rates = RatesField.entries m ∧ rates_get target m = none) →
      get_current_rate target (ApiOutcome.success d) =
        (none, some FailureKind.extractionMissingCode)) ∧
    (∀ (target : String) (o : ApiOutcome),
      (o = ApiOutcome.transportError ∨ (∃ st, o = ApiOutcome.httpError st) ∨
        o = ApiOutcome.invalidJson) →
      get_current_rate target o = (none, some FailureKind.fetchError)) ∧
    (∀ (target : String) (o : ApiOutcome),
      ((get_current_rate target o).1 = none ↔ (get_current_rate target o).2 ≠ none)) ∧
    (∀ (target : String) (outcomes : ℕ → ApiOutcome) (max_attempts : ℕ),
      (∀ i, i < max_attempts → (get_current_rate target (outcomes i)).1 = none) →
      (get_rate_with_retry (fun i => (get_current_rate target (outcomes i)).1)
        max_attempts).1 = none) := by
  refine ⟨?_, ?_, ?_, ?_⟩
  · intro target d h
    rcases h with h | ⟨m, h1, h2⟩
    · simp [get_current_rate, get_current_rate_body, extract_rate_from_response, h]
    · simp [get_current_rate, get_current_rate_body, extract_rate_from_response, h1, h2]
  · intro target o h
    rcases h with h | ⟨st, h⟩ | h <;> subst h <;> rfl
  · intro target o
    cases o with
    | transportError => simp [get_current_rate, get_current_rate_body]
    | httpError st => simp [get_current_rate, get_current_rate_body]
    | invalidJson => simp [get_current_rate, get_current_rate_body]
    | success d =>
      cases hr : d.rates with
      | missing =>
        simp [get_current_rate, get_current_rate_body, extract_rate_from_response, hr]
      | notDict =>
        simp [get_current_rate, get_current_rate_body, extract_rate_from_response, hr]
      | entries m =>
        cases hv : rates_get target m with
        | none =>
          simp [get_current_rate, get_current_rate_body, extract_rate_from_response,
            hr, hv]
        | some v =>
          cases v <;>
            simp [get_current_rate, get_current_rate_body, extract_rate_from_response,
              hr, hv]
  · intro target outcomes max_attempts hall
    unfold get_rate_with_retry
    rw [retryAux_all_none (fun i => (get_current_rate target (outcomes i)).1)
      (max_attempts - 1) max_attempts 0 [] 0 (fun j _ hj => hall j (by omega))]

/-- Witness for C7 at a concrete input: a response whose rates map lacks
the configured currency code produces the extraction failure result. -/
theorem fetch_failures_returned_not_raised_witness :
    get_current_rate "CNY"
        (ApiOutcome.success ⟨RatesField.entries [("USD", JsonVal.num 1)]⟩) =
      (none, some FailureKind.extractionMissingCode) :=
  fetch_failures_returned_not_raised.1 "CNY"
    ⟨RatesField.entries [("USD", JsonVal.num 1)]⟩
    (Or.inr ⟨[("USD", JsonVal.num 1)], rfl, by decide⟩)

/-- Substring containment: `sub` occurs contiguously in `s`. -/
def strContains (s sub : String) : Prop :=
  ∃ a b, s = a ++ sub ++ b

/-- Helper: every piece of a concatenated list of strings occurs in the
concatenation. -/
theorem strContains_concatAll (l : List String) (x : String) (h : x ∈ l) :
    strContains (concatAll l) x := by
  induction l with
  | nil => cases h
  | cons s rest ih =>
    rcases List.mem_cons.mp h with rfl | hmem
    · exact ⟨"", concatAll rest, by rw [concatAll, String.empty_append]⟩
    · obtain ⟨a, b, hb⟩ := ih hmem
      exact ⟨s ++ a, b, by rw [concatAll, hb]; simp [String.append_assoc]⟩

/-- Helper: the alert template contains the rendered rate, threshold,
difference, and percentage (with its percent sign) it was called with. -/
theorem alert_email_contains (cr t d p : ℚ) (ft cp ni : String) :
    strContains (format_alert_email cr t d p ft cp ni) (pyFormatFloat false 4 cr) ∧
    strContains (format_alert_email cr t d p ft cp ni) (pyFormatFloat false 4 t) ∧
    strContains (format_alert_email cr t d p ft cp ni) (pyFormatFloat true 4 d) ∧
    strContains (format_alert_email cr t d p ft cp ni)
      (pyFormatFloat true 2 p ++ "%") := by
  unfold format_alert_email
  exact ⟨strContains_concatAll _ _ (by simp), strContains_concatAll _ _ (by simp),
    strContains_concatAll _ _ (by simp), strContains_concatAll _ _ (by simp)⟩

/-- Helper: the summary template contains the rendered rate, threshold,
difference, and percentage (with its percent sign) it was called with. -/
theorem summary_email_contains (cr t d p : ℚ) (ft cp ni : String) :
    strContains (format_summary_email cr t d p ft cp ni) (pyFormatFloat false 4 cr) ∧
    strContains (format_summary_email cr t d p ft cp ni) (pyFormatFloat false 4 t) ∧
    strContains (format_summary_email cr t d p ft cp ni) (pyFormatFloat true 4 d) ∧
    strContains (format_summary_email cr t d p ft cp ni)
      (pyFormatFloat true 2 p ++ "%") := by
  unfold format_summary_email
  exact ⟨strContains_concatAll _ _ (by simp), strContains_concatAll _ _ (by simp),
    strContains_concatAll _ _ (by simp), strContains_concatAll _ _ (by simp)⟩

/-- C6: for either message kind, the rendered body contains the current
rate and threshold formatted to 4 decimal places, the signed difference
`current_rate - threshold` to 4 decimal places, and the signed percentage
`(current_rate - threshold) / threshold * 100` (which is `0` when the
threshold is `0`, division by zero being zero here) to 2 decimal places
followed by a percent sign. -/
theorem email_body_contains_formatted_fields (current_rate threshold : ℚ)
    (formatted_time currency_pair now_id : String) (is_alert : Bool)
    (hT : 0 ≤ threshold) :
    strContains
      (format_email_message current_rate threshold formatted_time currency_pair
        now_id is_alert)
      (pyFormatFloat false 4 current_rate) ∧
    strContains
      (format_email_message current_rate threshold formatted_time currency_pair
        now_id is_alert)
      (pyFormatFloat false 4 threshold) ∧
    strContains
      (format_email_message current_rate threshold formatted_time currency_pair
        now_id is_alert)
      (pyFormatFloat true 4 (current_rate - threshold)) ∧
    strContains
      (format_email_message current_rate threshold formatted_time currency_pair
        now_id is_alert)
      (pyFormatFloat true 2 ((current_rate - threshold) / threshold * 100) ++ "%") := by
  have hpct : (if 0 < threshold then (current_rate - threshold) / threshold * 100 else 0)
      = (current_rate - threshold) / threshold * 100 := by
    rcases lt_or_eq_of_le hT with h | h
    · rw [if_pos h]
    · rw [if_neg (by rw [← h]; exact lt_irrefl 0), ← h, div_zero, zero_mul]
  cases is_alert with
  | true =>
    have hmsg : format_email_message current_rate threshold formatted_time
        currency_pair now_id true =
        format_alert_email current_rate threshold (current_rate - threshold)
          (if 0 < threshold then (current_rate - threshold) / threshold * 100 else 0)
          formatted_time currency_pair now_id := rfl
    have h := alert_email_contains current_rate threshold (current_rate - threshold)
      (if 0 < threshold then (current_rate - threshold) / threshold * 100 else 0)
      formatted_time currency_pair now_id
    rw [hpct] at h
    rw [hmsg, hpct]
    exact h
  | false =>
    have hmsg : format_email_message current_rate threshold formatted_time
        currency_pair now_id false =
        format_summary_email current_rate threshold (current_rate - threshold)
          (if 0 < threshold then (current_rate - threshold) / threshold * 100 else 0)
          formatted_time currency_pair now_id := rfl
    have h := summary_email_contains current_rate threshold (current_rate - threshold)
      (if 0 < threshold then (current_rate - threshold) / threshold * 100 else 0)
      formatted_time currency_pair now_id
    rw [hpct] at h
    rw [hmsg, hpct]
    exact h

/-- Witness for C6 at the concrete sample of the spec: rate 5.02 against
threshold 5.05 renders a body containing 5.0200, 5.0500, -0.0300 and
-0.59 percent. -/
theorem email_body_contains_formatted_fields_witness :
    strContains
      (format_email_message (Rat.divInt 251 50) (Rat.divInt 101 20)
        "2025-01-27 10:00:00 UTC" "CAD-RMB" "20250127-100000" true) "5.0200" ∧
    strContains
      (format_email_message (Rat.divInt 251 50) (Rat.divInt 101 20)
        "2025-01-27 10:00:00 UTC" "CAD-RMB" "20250127-100000" true) "5.0500" ∧
    strContains
      (format_email_message (Rat.divInt 251 50) (Rat.divInt 101 20)
        "2025-01-27 10:00:00 UTC" "CAD-RMB" "20250127-100000" true) "-0.0300" ∧
    strContains
      (format_email_message (Rat.divInt 251 50) (Rat.divInt 101 20)
        "2025-01-27 10:00:00 UTC" "CAD-RMB" "20250127-100000" true) "-0.59%" := by
  have h := email_body_contains_formatted_fields (Rat.divInt 251 50) (Rat.divInt 101 20)
    "2025-01-27 10:00:00 UTC" "CAD-RMB" "20250127-100000" true (by decide)
  have e1 : pyFormatFloat false 4 (Rat.divInt 251 50) = "5.0200" := by decide
  have e2 : pyFormatFloat false 4 (Rat.divInt 101 20) = "5.0500" := by decide
  have e3 : pyFormatFloat true 4 (Rat.divInt 251 50 - Rat.divInt 101 20) = "-0.0300" := by
    rw [show Rat.divInt 251 50 - Rat.divInt 101 20 = Rat.divInt (-3) 100 from by
      norm_num [Rat.divInt_eq_div]]
    decide
  have e4 : pyFormatFloat true 2
      ((Rat.divInt 251 50 - Rat.divInt 101 20) / Rat.divInt 101 20 * 100) ++ "%"
      = "-0.59%" := by
    rw [show (Rat.divInt 251 50 - Rat.divInt 101 20) / Rat.divInt 101 20 * 100
        = Rat.divInt (-60) 101 from by norm_num [Rat.divInt_eq_div]]
    decide
  exact ⟨e1 ▸ h.1, e2 ▸ h.2.1, e3 ▸ h.2.2.1, e4 ▸ h.2.2.2⟩

end CurrencyBot
